import Mathlib

/-!
Verification of the Rural-Health-Tracker data-access and aggregation layer.

The development shallowly embeds the storage façade (`server/storage.ts`,
class `DatabaseStorage`) and the report endpoints (`server/routes.ts`)
over explicit list-valued database states.

Modelling conventions:
* SQL `date` values and JS timestamps are modelled by `SDate`, a triple
  `(y, m, d)` ordered lexicographically.  For `date` columns `d` is the
  day of month; for timestamps `d` is the sub-month position of the
  instant (so the lexicographic order is exactly the calendar order and
  `y`/`m` are exactly what `getFullYear()` / `getMonth() + 1` extract).
* Nullable columns are `Option`-valued; SQL comparisons against `NULL`
  are false (the row is not selected), matching the `WHERE` clauses of
  `getVaccinationStats`.
* The current clock (`new Date()`, `Date.now()`) is passed as an
  explicit parameter to each operation that reads it.
* The monthly report's completion rate is computed by JS doubles.  The
  embedding evaluates `(g / t) * 100` in exact IEEE-754 binary64
  semantics — a round-to-nearest-even division followed by a
  round-to-nearest-even multiplication by 100, carried out as integer
  arithmetic on mantissa/exponent pairs — and `toFixed(1)` as ECMA's
  nearest-tenths rendering of the resulting (exactly known) rational.
  The exact-arithmetic rounding of the same expression is kept as a
  separate definition (`rateTenths`) following the spec's words, to be
  compared against the code's float evaluation.
* `bcrypt.hash ∘ (· , 10)` is an abstract parameter `hash : String → String`.
-/

set_option exponentiation.threshold 2200
set_option maxRecDepth 8000

/-- Calendar instant: year, month, and position within the month,
ordered lexicographically (= calendar order). -/
structure SDate where
  y : Nat
  m : Nat
  d : Nat
deriving DecidableEq, Repr

/-- Strict calendar order, as the SQL `<` on dates / timestamps. -/
def SDate.ltb (a b : SDate) : Bool :=
  a.y < b.y || (a.y == b.y && (a.m < b.m || (a.m == b.m && a.d < b.d)))

/-- Non-strict calendar order, as the SQL `>=` (with arguments flipped). -/
def SDate.leb (a b : SDate) : Bool :=
  a.ltb b || a == b

theorem SDate.leb_eq_not_ltb (a b : SDate) : a.leb b = !b.ltb a := by
  cases a; cases b
  rw [Bool.eq_iff_iff]
  simp [SDate.leb, SDate.ltb, SDate.mk.injEq]
  omega

theorem SDate.ltb_irrefl (a : SDate) : a.ltb a = false := by
  cases a; simp [SDate.ltb]

/-- Decimal digit character, as produced by JS `String(n)`. -/
def digitChar (d : Nat) : Char := Char.ofNat (48 + d)

/-- JS `String.prototype.padStart(len, c)`: left-pad to `len` characters;
a string already at least `len` long is returned unchanged. -/
def padStart (len : Nat) (c : Char) (s : String) : String :=
  String.mk (List.replicate (len - s.length) c) ++ s

/-- Decimal representation of a natural number, as JS `String(n)`:
most-significant digit first, no leading zeros (except `"0"`). -/
def decimalRepr (n : Nat) : String :=
  if n = 0 then "0" else String.mk (((Nat.digits 10 n).map digitChar).reverse)

/-- Value of a most-significant-first decimal digit string, used to state
facts about the numeric suffix of generated patient ids. -/
def decimalValue (l : List Char) : Nat :=
  l.foldl (fun a c => 10 * a + (c.toNat - 48)) 0

/-- The generated patient id of `DatabaseStorage.createPatient` when the
current patient count is `count`: `RH` + `String(count+1).padStart(6, '0')`. -/
def genPatientId (count : Nat) : String :=
  "RH" ++ padStart 6 '0' (decimalRepr (count + 1))

/-- Numeric suffix of a generated patient id (decimal value after `"RH"`). -/
def suffixValue (s : String) : Nat :=
  decimalValue (s.data.drop 2)

/-- Decidable match for the regular expression `^RH\d{6}$`. -/
def isPatientIdFormat (s : String) : Bool :=
  s.length == 8 && s.data.take 2 == ['R', 'H'] && (s.data.drop 2).all (fun c => c.isDigit)

theorem digitChar_toNat {d : Nat} (h : d < 10) : (digitChar d).toNat = 48 + d := by
  interval_cases d <;> decide

theorem digitChar_isDigit {d : Nat} (h : d < 10) : (digitChar d).isDigit = true := by
  interval_cases d <;> decide

theorem foldl_msb_digits (ds : List Nat) (a : Nat) :
    List.foldl (fun x d => 10 * x + d) a ds.reverse = a * 10 ^ ds.length + Nat.ofDigits 10 ds := by
  induction ds generalizing a with
  | nil => simp [Nat.ofDigits]
  | cons d t ih =>
    simp [List.foldl_append, ih, Nat.ofDigits_cons, pow_succ]
    ring

theorem foldl_ext_mem {α : Type} (f g : Nat → α → Nat) (l : List α) (a : Nat)
    (h : ∀ b ∈ l, ∀ x, f x b = g x b) : l.foldl f a = l.foldl g a := by
  induction l generalizing a with
  | nil => rfl
  | cons b t ih =>
    simp only [List.foldl_cons]
    rw [h b (by simp)]
    exact ih _ (fun b hb x => h b (by simp [hb]) x)

theorem decimalValue_replicate_zero (k : Nat) (l : List Char) :
    decimalValue (List.replicate k '0' ++ l) = decimalValue l := by
  induction k with
  | zero => simp
  | succ k ih =>
    simpa [decimalValue, List.replicate_succ] using ih

theorem decimalValue_decimalRepr (n : Nat) : decimalValue (decimalRepr n).data = n := by
  by_cases h : n = 0
  · subst h; decide
  · unfold decimalRepr decimalValue
    simp only [h, if_false]
    rw [← List.map_reverse]
    rw [List.foldl_map]
    rw [foldl_ext_mem (fun a c => 10 * a + ((digitChar c).toNat - 48)) (fun a c => 10 * a + c)
      (Nat.digits 10 n).reverse 0 ?_]
    · rw [foldl_msb_digits]
      simp [Nat.ofDigits_digits]
    · intro b hb x
      have hb' : b ∈ Nat.digits 10 n := List.mem_reverse.mp hb
      have hlt : b < 10 := Nat.digits_lt_base (by norm_num) hb'
      show 10 * x + ((digitChar b).toNat - 48) = 10 * x + b
      rw [digitChar_toNat hlt]
      omega

theorem decimalRepr_data {n : Nat} (h : n ≠ 0) :
    (decimalRepr n).data = ((Nat.digits 10 n).map digitChar).reverse := by
  unfold decimalRepr
  simp only [h, if_false]

theorem decimalRepr_length {n : Nat} (h : n ≠ 0) :
    (decimalRepr n).length = (Nat.digits 10 n).length := by
  show (decimalRepr n).data.length = _
  rw [decimalRepr_data h]
  simp

theorem genPatientId_data (n : Nat) :
    (genPatientId n).data =
      'R' :: 'H' :: (List.replicate (6 - (Nat.digits 10 (n + 1)).length) '0' ++
        ((Nat.digits 10 (n + 1)).map digitChar).reverse) := by
  have h : n + 1 ≠ 0 := Nat.succ_ne_zero n
  unfold genPatientId padStart
  rw [String.data_append, String.data_append]
  rw [decimalRepr_length h, decimalRepr_data h]
  rfl

theorem suffixValue_genPatientId (n : Nat) : suffixValue (genPatientId n) = n + 1 := by
  unfold suffixValue
  rw [genPatientId_data]
  simp only [List.drop_succ_cons, List.drop_zero]
  rw [decimalValue_replicate_zero]
  have h : n + 1 ≠ 0 := Nat.succ_ne_zero n
  have := decimalValue_decimalRepr (n + 1)
  rw [decimalRepr_data h] at this
  exact this

theorem genPatientId_injective : Function.Injective genPatientId := by
  intro a b h
  have := suffixValue_genPatientId a
  rw [h, suffixValue_genPatientId] at this
  omega

theorem digits_len_le_six {n : Nat} (h : n < 10 ^ 6) : (Nat.digits 10 n).length ≤ 6 := by
  by_cases hn : n = 0
  · subst hn; simp
  · have h1 : 10 ^ (Nat.digits 10 n).length ≤ 10 * n :=
      Nat.base_pow_length_digits_le 10 n (by norm_num) hn
    have h2 : 10 * n < 10 ^ 7 := by
      calc 10 * n < 10 * 10 ^ 6 := by omega
      _ = 10 ^ 7 := by norm_num
    have h3 : (10 : Nat) ^ (Nat.digits 10 n).length < 10 ^ 7 := lt_of_le_of_lt h1 h2
    by_contra hc
    push_neg at hc
    have : (10 : Nat) ^ 7 ≤ 10 ^ (Nat.digits 10 n).length :=
      Nat.pow_le_pow_right (by norm_num) (by omega)
    omega

theorem isPatientIdFormat_genPatientId {n : Nat} (h : n + 1 < 10 ^ 6) :
    isPatientIdFormat (genPatientId n) = true := by
  have hlen : (Nat.digits 10 (n + 1)).length ≤ 6 := digits_len_le_six h
  have hd := genPatientId_data n
  unfold isPatientIdFormat
  rw [Bool.and_eq_true, Bool.and_eq_true]
  refine ⟨⟨?_, ?_⟩, ?_⟩
  · have hl : (genPatientId n).length = 8 := by
      show (genPatientId n).data.length = 8
      rw [hd]
      simp only [List.length_cons, List.length_append, List.length_replicate,
        List.length_reverse, List.length_map]
      omega
    simp [hl]
  · rw [hd]
    simp
  · rw [hd]
    simp only [List.drop_succ_cons, List.drop_zero, List.all_append, Bool.and_eq_true,
      List.all_eq_true]
    constructor
    · intro c hc
      have : c = '0' := List.eq_of_mem_replicate hc
      subst this; decide
    · intro c hc
      simp only [List.mem_reverse, List.mem_map] at hc
      obtain ⟨dd, hdd, rfl⟩ := hc
      exact digitChar_isDigit (Nat.digits_lt_base (by norm_num) hdd)

/-- Row of the `users` table (`shared/schema.ts`). -/
structure User where
  id : Nat
  username : String
  password : String
  role : String
  name : String
  phone : Option String
  email : Option String
  isActive : Bool
  createdAt : SDate
  updatedAt : SDate
deriving DecidableEq, Repr

/-- Row of the `patients` table (`shared/schema.ts`). -/
structure Patient where
  id : Nat
  patientId : String
  name : String
  phone : Option String
  dateOfBirth : Option SDate
  gender : Option String
  address : Option String
  guardianName : Option String
  guardianPhone : Option String
  ageGroup : String
  qrCode : String
  medicalHistory : Option String
  allergies : Option String
  createdAt : Option SDate
  updatedAt : Option SDate
  createdBy : Option Nat
deriving DecidableEq, Repr

/-- Row of the `vaccinations` table (`shared/schema.ts`). -/
structure Vaccination where
  id : Nat
  patientId : Nat
  vaccineId : Nat
  doseNumber : Nat
  scheduledDate : Option SDate
  administeredDate : Option SDate
  status : String
  notes : Option String
  administeredBy : Option Nat
  createdAt : Option SDate
  updatedAt : Option SDate
deriving DecidableEq, Repr

/-- Row of the `appointments` table (`shared/schema.ts`). -/
structure Appointment where
  id : Nat
  patientId : Nat
  vaccinationId : Option Nat
  appointmentDate : SDate
  appointmentTime : String
  status : String
  type : String
  notes : Option String
  createdBy : Option Nat
  createdAt : Option SDate
  updatedAt : Option SDate
deriving DecidableEq, Repr

/-- `InsertPatient` (`insertPatientSchema`): every patient column except the
omitted `id`, `patientId`, `qrCode`, `createdAt`, `updatedAt`. -/
structure InsertPatient where
  name : String
  phone : Option String
  dateOfBirth : Option SDate
  gender : Option String
  address : Option String
  guardianName : Option String
  guardianPhone : Option String
  ageGroup : String
  medicalHistory : Option String
  allergies : Option String
  createdBy : Option Nat
deriving DecidableEq, Repr

/-- `Partial<InsertUser>`: each updatable user field independently
present (`some`) or absent (`none`).  `InsertUser` omits `id`,
`createdAt`, `updatedAt`. -/
structure UserUpdate where
  username : Option String
  password : Option String
  role : Option String
  name : Option String
  phone : Option (Option String)
  email : Option (Option String)
  isActive : Option Bool
deriving DecidableEq, Repr

/-- `Partial<InsertPatient>`: each updatable patient field independently
present or absent.  The generated `patientId` and `qrCode` (and `id`,
`createdAt`, `updatedAt`) are omitted from `InsertPatient` by
`insertPatientSchema`, so no update object can name them. -/
structure PatientUpdate where
  name : Option String
  phone : Option (Option String)
  dateOfBirth : Option (Option SDate)
  gender : Option (Option String)
  address : Option (Option String)
  guardianName : Option (Option String)
  guardianPhone : Option (Option String)
  ageGroup : Option String
  medicalHistory : Option (Option String)
  allergies : Option (Option String)
  createdBy : Option (Option Nat)
deriving DecidableEq, Repr

/-- `Partial<InsertVaccination>`. -/
structure VaccinationUpdate where
  patientId : Option Nat
  vaccineId : Option Nat
  doseNumber : Option Nat
  scheduledDate : Option (Option SDate)
  administeredDate : Option (Option SDate)
  status : Option String
  notes : Option (Option String)
  administeredBy : Option (Option Nat)
deriving DecidableEq, Repr

/-- `Partial<InsertAppointment>`. -/
structure AppointmentUpdate where
  patientId : Option Nat
  vaccinationId : Option (Option Nat)
  appointmentDate : Option SDate
  appointmentTime : Option String
  status : Option String
  type : Option String
  notes : Option (Option String)
  createdBy : Option (Option Nat)
deriving DecidableEq, Repr

/-- Database state: the four row stores used by the verified claims plus
the `patients.id` serial sequence. -/
structure DB where
  users : List User
  patients : List Patient
  vaccinations : List Vaccination
  appointments : List Appointment
  patientsNextId : Nat
deriving DecidableEq, Repr

/-- `DatabaseStorage.getPatient`: first row with the given serial id. -/
def getPatient (db : DB) (id : Nat) : Option Patient :=
  db.patients.find? (fun p => p.id == id)

/-- `DatabaseStorage.getPatientByPatientId`. -/
def getPatientByPatientId (db : DB) (patientId : String) : Option Patient :=
  db.patients.find? (fun p => p.patientId == patientId)

/-- `DatabaseStorage.getPatientByQRCode`. -/
def getPatientByQRCode (db : DB) (qrCode : String) : Option Patient :=
  db.patients.find? (fun p => p.qrCode == qrCode)

/-- `DatabaseStorage.createPatient`: reads the current patient count,
derives `patientId` and `qrCode`, and inserts the new row.  `nowMs` is
`Date.now()` (epoch milliseconds, used only inside the QR payload) and
`now` is the row-creation instant stamped by the database defaults. -/
def createPatient (db : DB) (ins : InsertPatient) (nowMs : Nat) (now : SDate) :
    Patient × DB :=
  let patientId := genPatientId db.patients.length
  let qrCode := "RH_" ++ patientId ++ "_" ++ decimalRepr nowMs
  let p : Patient :=
    { id := db.patientsNextId
      patientId := patientId
      name := ins.name
      phone := ins.phone
      dateOfBirth := ins.dateOfBirth
      gender := ins.gender
      address := ins.address
      guardianName := ins.guardianName
      guardianPhone := ins.guardianPhone
      ageGroup := ins.ageGroup
      qrCode := qrCode
      medicalHistory := ins.medicalHistory
      allergies := ins.allergies
      createdAt := some now
      updatedAt := some now
      createdBy := ins.createdBy }
  (p, { db with patients := db.patients ++ [p], patientsNextId := db.patientsNextId + 1 })

/-- The `INSERT` of `createPatient` succeeds: the primary key and the two
unique columns (`patientId`, `qrCode`) of the new row clash with no
existing row. -/
def createOk (db : DB) (ins : InsertPatient) (nowMs : Nat) (now : SDate) : Bool :=
  let p := (createPatient db ins nowMs now).1
  db.patients.all (fun q => q.id != p.id && q.patientId != p.patientId && q.qrCode != p.qrCode)

/-- Sequential (non-concurrent) patient creation: run the given creation
jobs one after the other, collecting the created rows in order. -/
def seqCreate (db : DB) : List (InsertPatient × Nat × SDate) → List Patient × DB
  | [] => ([], db)
  | (ins, nowMs, now) :: rest =>
      let pdb := createPatient db ins nowMs now
      let rec' := seqCreate pdb.2 rest
      (pdb.1 :: rec'.1, rec'.2)

/-- Merge of `{ ...updates, updatedAt: new Date() }` into a patient row:
present fields overwrite, absent fields keep the stored value, and the
update timestamp is always refreshed. -/
def applyPatientUpdate (p : Patient) (u : PatientUpdate) (now : SDate) : Patient :=
  { id := p.id
    patientId := p.patientId
    name := u.name.getD p.name
    phone := u.phone.getD p.phone
    dateOfBirth := u.dateOfBirth.getD p.dateOfBirth
    gender := u.gender.getD p.gender
    address := u.address.getD p.address
    guardianName := u.guardianName.getD p.guardianName
    guardianPhone := u.guardianPhone.getD p.guardianPhone
    ageGroup := u.ageGroup.getD p.ageGroup
    qrCode := p.qrCode
    medicalHistory := u.medicalHistory.getD p.medicalHistory
    allergies := u.allergies.getD p.allergies
    createdAt := p.createdAt
    updatedAt := some now
    createdBy := u.createdBy.getD p.createdBy }

/-- `DatabaseStorage.updatePatient`: `UPDATE … WHERE id = … RETURNING`.
With no matching row the returned destructured row is `undefined`
(`none`) and the store is unchanged. -/
def updatePatient (db : DB) (id : Nat) (u : PatientUpdate) (now : SDate) :
    Option Patient × DB :=
  ((db.patients.find? (fun p => p.id == id)).map (fun p => applyPatientUpdate p u now),
    { db with patients :=
        db.patients.map (fun p => if p.id == id then applyPatientUpdate p u now else p) })

/-- Merge of `updateUser`: a truthy (present, non-empty) password is
re-hashed first; an empty-string password is kept verbatim; then the
fields are merged and the update timestamp refreshed. -/
def applyUserUpdate (hash : String → String) (u : User) (upd : UserUpdate) (now : SDate) :
    User :=
  let password := match upd.password with
    | none => u.password
    | some pw => if pw = "" then pw else hash pw
  { id := u.id
    username := upd.username.getD u.username
    password := password
    role := upd.role.getD u.role
    name := upd.name.getD u.name
    phone := upd.phone.getD u.phone
    email := upd.email.getD u.email
    isActive := upd.isActive.getD u.isActive
    createdAt := u.createdAt
    updatedAt := now }

/-- `DatabaseStorage.updateUser`. -/
def updateUser (hash : String → String) (db : DB) (id : Nat) (u : UserUpdate) (now : SDate) :
    Option User × DB :=
  ((db.users.find? (fun x => x.id == id)).map (fun x => applyUserUpdate hash x u now),
    { db with users :=
        db.users.map (fun x => if x.id == id then applyUserUpdate hash x u now else x) })

/-- Merge of `updateVaccination`. -/
def applyVaccinationUpdate (v : Vaccination) (u : VaccinationUpdate) (now : SDate) :
    Vaccination :=
  { id := v.id
    patientId := u.patientId.getD v.patientId
    vaccineId := u.vaccineId.getD v.vaccineId
    doseNumber := u.doseNumber.getD v.doseNumber
    scheduledDate := u.scheduledDate.getD v.scheduledDate
    administeredDate := u.administeredDate.getD v.administeredDate
    status := u.status.getD v.status
    notes := u.notes.getD v.notes
    administeredBy := u.administeredBy.getD v.administeredBy
    createdAt := v.createdAt
    updatedAt := some now }

/-- `DatabaseStorage.updateVaccination`. -/
def updateVaccination (db : DB) (id : Nat) (u : VaccinationUpdate) (now : SDate) :
    Option Vaccination × DB :=
  ((db.vaccinations.find? (fun v => v.id == id)).map (fun v => applyVaccinationUpdate v u now),
    { db with vaccinations :=
        db.vaccinations.map (fun v => if v.id == id then applyVaccinationUpdate v u now else v) })

/-- Merge of `updateAppointment`. -/
def applyAppointmentUpdate (a : Appointment) (u : AppointmentUpdate) (now : SDate) :
    Appointment :=
  { id := a.id
    patientId := u.patientId.getD a.patientId
    vaccinationId := u.vaccinationId.getD a.vaccinationId
    appointmentDate := u.appointmentDate.getD a.appointmentDate
    appointmentTime := u.appointmentTime.getD a.appointmentTime
    status := u.status.getD a.status
    type := u.type.getD a.type
    notes := u.notes.getD a.notes
    createdBy := u.createdBy.getD a.createdBy
    createdAt := a.createdAt
    updatedAt := some now }

/-- `DatabaseStorage.updateAppointment`. -/
def updateAppointment (db : DB) (id : Nat) (u : AppointmentUpdate) (now : SDate) :
    Option Appointment × DB :=
  ((db.appointments.find? (fun a => a.id == id)).map (fun a => applyAppointmentUpdate a u now),
    { db with appointments :=
        db.appointments.map (fun a => if a.id == id then applyAppointmentUpdate a u now else a) })

/-- `DatabaseStorage.getVaccinationsByPatient`: the patient's vaccination
rows.  The source additionally orders them by `scheduledDate`
descending; the ordering is omitted here as every verified claim about
this list is membership-only. -/
def getVaccinationsByPatient (db : DB) (patientId : Nat) : List Vaccination :=
  db.vaccinations.filter (fun v => v.patientId == patientId)

/-- `DatabaseStorage.getVaccinationStats`: three independent filtered
counts against `today` (the current date truncated at UTC midnight by
`new Date().toISOString().split('T')[0]`).  A `NULL` `scheduledDate`
satisfies neither SQL comparison. -/
def getVaccinationStats (db : DB) (today : SDate) : Nat × Nat × Nat :=
  (db.vaccinations.countP (fun v => v.status == "completed"),
   db.vaccinations.countP (fun v => v.status == "scheduled" &&
     (match v.scheduledDate with
      | some d => SDate.leb today d
      | none => false)),
   db.vaccinations.countP (fun v => v.status == "scheduled" &&
     (match v.scheduledDate with
      | some d => SDate.ltb d today
      | none => false)))

/-- Comparator of `ORDER BY created_at DESC` (`NULL`s first, the
PostgreSQL default for descending order). -/
def createdAtDescLe (a b : Patient) : Bool :=
  match a.createdAt, b.createdAt with
  | none, _ => true
  | some _, none => false
  | some x, some y => SDate.leb y x

/-- `DatabaseStorage.getAllPatients`: patients ordered by creation time
descending, then `OFFSET offset LIMIT limit`.  The storage defaults are
`limit = 50`, `offset = 0`; the report endpoints pass `1000, 0`. -/
def getAllPatients (db : DB) (limit offset : Nat) : List Patient :=
  ((db.patients.mergeSort createdAtDescLe).drop offset).take limit

/-- Overdue filter of the `GET /api/reports/overdue` handler: a present
`scheduledDate` strictly before today with status `scheduled`. -/
def isOverdueVaccination (v : Vaccination) (today : SDate) : Bool :=
  (match v.scheduledDate with
   | some d => SDate.ltb d today
   | none => false) && v.status == "scheduled"

/-- Body of the overdue report over an already-fetched patient list: for
each patient keep the overdue vaccinations, dropping patients with none. -/
def overdueReport (db : DB) (ps : List Patient) (today : SDate) :
    List (Patient × List Vaccination) :=
  ps.filterMap (fun p =>
    let ov := (getVaccinationsByPatient db p.id).filter (fun v => isOverdueVaccination v today)
    if ov.isEmpty then none else some (p, ov))

/-- `GET /api/reports/overdue`: the report over the capped patient fetch. -/
def overdueEndpoint (db : DB) (today : SDate) : List (Patient × List Vaccination) :=
  overdueReport db (getAllPatients db 1000 0) today

/-- Age-group label of the demographics report: `p.ageGroup || 'Unknown'`. -/
def ageGroupLabel (p : Patient) : String :=
  if p.ageGroup = "" then "Unknown" else p.ageGroup

/-- Gender label of the demographics report: `p.gender || 'Unknown'`
(both an absent and an empty-string gender are falsy). -/
def genderLabel (p : Patient) : String :=
  match p.gender with
  | none => "Unknown"
  | some g => if g = "" then "Unknown" else g

/-- The mapping built by the handler's `reduce`: one entry per distinct
label, carrying the number of patients with that label. -/
def countsBy (f : Patient → String) (ps : List Patient) : List (String × Nat) :=
  (ps.map f).dedup.map (fun lab => (lab, (ps.map f).count lab))

/-- Demographics shape: `byAgeGroup`, `byGender`, `total`. -/
structure Demographics where
  byAgeGroup : List (String × Nat)
  byGender : List (String × Nat)
  total : Nat
deriving DecidableEq, Repr

/-- Demographics over an already-fetched patient list. -/
def demographicsReport (ps : List Patient) : Demographics :=
  { byAgeGroup := countsBy ageGroupLabel ps
    byGender := countsBy genderLabel ps
    total := ps.length }

/-- `GET /api/reports/demographics`. -/
def demographicsEndpoint (db : DB) : Demographics :=
  demographicsReport (getAllPatients db 1000 0)

/-- Month filter of the monthly report: an absent date never matches;
a present one matches when its extracted year and month equal the
target. -/
def monthMatches (dt : Option SDate) (year month : Nat) : Bool :=
  match dt with
  | none => false
  | some t => t.y == year && t.m == month

/-- The spec's words for the completion rate — `(given / total) * 100`
rounded to one decimal place with exact arithmetic (nearest number of
tenths, ties away from zero).  This is NOT what the code computes: the
code evaluates the expression in binary64 doubles (`floatTenths`
below), which can land on the other side of a tenth boundary. -/
def rateTenths (given total : Nat) : Nat :=
  (2000 * given + total) / (2 * total)

/-- Round-to-nearest of the rational `a / b` to an integer, ties to
even — the rounding step of every IEEE-754 binary64 operation. -/
def rne (a b : Nat) : Nat :=
  let q := a / b
  let r := a % b
  if 2 * r < b then q
  else if b < 2 * r then q + 1
  else if q % 2 == 0 then q else q + 1

/-- Integers `top, top - 1, …` (`k` of them), the exponent candidates
searched by `floorLog2`. -/
def descendingInts : Nat → Int → List Int
  | 0, _ => []
  | k + 1, top => top :: descendingInts k (top - 1)

/-- Decides `2 ^ e ≤ a / b` without leaving integer arithmetic. -/
def pow2LeRat (a b : Nat) (e : Int) : Bool :=
  if 0 ≤ e then b * 2 ^ e.toNat ≤ a else b ≤ a * 2 ^ (-e).toNat

/-- Binary exponent `⌊log₂ (a / b)⌋` of a positive rational, searched
over the full binary64 exponent range `[-1074, 1023]`; the fallback
`-1075` is returned for `a / b < 2 ^ (-1074)` and makes `flPos` round
such values to zero, exactly as binary64 underflow does. -/
def floorLog2 (a b : Nat) : Int :=
  ((descendingInts 2098 1023).find? (fun e => pow2LeRat a b e)).getD (-1075)

/-- Round the positive rational `n / d` to the nearest binary64 value
(ties to even), returned as a mantissa/exponent pair `(m, p)` denoting
`m · 2 ^ p`: the unit in the last place is `2 ^ (e - 52)` for normal
values and `2 ^ (-1074)` below the normal range.  (Overflow to
Infinity, impossible for the report's operands, is not modelled.) -/
def flPos (n d : Nat) : Nat × Int :=
  let e := floorLog2 n d
  let ulpExp := if e < -1022 then (-1074 : Int) else e - 52
  let m := if 0 ≤ ulpExp then rne n (d * 2 ^ ulpExp.toNat)
           else rne (n * 2 ^ (-ulpExp).toNat) d
  (m, ulpExp)

/-- Round the exact value `m · 2 ^ p` (an intermediate product) to the
nearest binary64 value. -/
def flScaled (m : Nat) (p : Int) : Nat × Int :=
  if 0 ≤ p then flPos (m * 2 ^ p.toNat) 1 else flPos m (2 ^ (-p).toNat)

/-- Number of tenths rendered by `((g / t) * 100).toFixed(1)` under
IEEE-754 evaluation: the double division `g / t`, the double
multiplication by 100, then ECMA's `toFixed(1)` — the integer `n`
minimising `|n / 10 - x|` over the exact value `x` of the resulting
double, ties to the larger `n` (computed as half-up since `x ≥ 0`). -/
def floatTenths (g t : Nat) : Nat :=
  let f1 := flPos g t
  let f2 := flScaled (f1.1 * 100) f1.2
  if 0 ≤ f2.2 then 10 * f2.1 * 2 ^ f2.2.toNat
  else (20 * f2.1 + 2 ^ (-f2.2).toNat) / (2 * 2 ^ (-f2.2).toNat)

/-- Rendering of `toFixed(1)`: integer part, dot, one tenths digit. -/
def renderFixed1 (tenths : Nat) : String :=
  decimalRepr (tenths / 10) ++ "." ++ decimalRepr (tenths % 10)

/-- Result shape of the monthly report (the `period` string is omitted). -/
structure MonthlyStats where
  newPatients : Nat
  vaccinationsGiven : Nat
  totalPatients : Nat
  completionRate : String
deriving DecidableEq, Repr

/-- Body of `GET /api/reports/monthly` over the fetched lists. -/
def monthlyReport (ps : List Patient) (vs : List Vaccination) (year month : Nat) :
    MonthlyStats :=
  let monthlyPatients := ps.filter (fun p => monthMatches p.createdAt year month)
  let monthlyVaccinations := vs.filter (fun v => monthMatches v.administeredDate year month)
  { newPatients := monthlyPatients.length
    vaccinationsGiven := monthlyVaccinations.length
    totalPatients := ps.length
    completionRate :=
      if ps.length > 0 then renderFixed1 (floatTenths monthlyVaccinations.length ps.length)
      else "0" }

/-- `GET /api/reports/monthly`. -/
def monthlyEndpoint (db : DB) (year month : Nat) : MonthlyStats :=
  monthlyReport (getAllPatients db 1000 0) db.vaccinations year month

/-- `GET /api/dashboard/stats`: the capped patient count together with
the three vaccination counts. -/
def dashboardStats (db : DB) (today : SDate) : Nat × (Nat × Nat × Nat) :=
  ((getAllPatients db 1000 0).length, getVaccinationStats db today)

theorem statContribution_le (v : Vaccination) (today : SDate) :
    (if v.status == "completed" then 1 else 0) +
    ((if v.status == "scheduled" &&
        (match v.scheduledDate with | some d => SDate.leb today d | none => false) then 1 else 0) +
     (if v.status == "scheduled" &&
        (match v.scheduledDate with | some d => SDate.ltb d today | none => false) then 1 else 0)) ≤ 1 := by
  by_cases h1 : v.status = "completed"
  · simp [h1]
  · by_cases h2 : v.status = "scheduled"
    · cases hd : v.scheduledDate with
      | none => simp [h1, h2, hd]
      | some d =>
        have hle := SDate.leb_eq_not_ltb today d
        cases hlt : SDate.ltb d today <;> simp_all
    · simp [h1, h2]

theorem statContribution_eq (v : Vaccination) (today : SDate)
    (h : v.status = "completed" ∨ (v.status = "scheduled" ∧ v.scheduledDate ≠ none)) :
    (if v.status == "completed" then 1 else 0) +
    ((if v.status == "scheduled" &&
        (match v.scheduledDate with | some d => SDate.leb today d | none => false) then 1 else 0) +
     (if v.status == "scheduled" &&
        (match v.scheduledDate with | some d => SDate.ltb d today | none => false) then 1 else 0)) = 1 := by
  rcases h with h1 | ⟨h2, hd⟩
  · simp [h1]
  · have h1 : v.status ≠ "completed" := by rw [h2]; decide
    cases hdd : v.scheduledDate with
    | none => exact absurd hdd hd
    | some d =>
      have hle := SDate.leb_eq_not_ltb today d
      cases hlt : SDate.ltb d today <;> simp_all

/-- C1 (amended): the three counts of `getVaccinationStats` sum to at
most the total vaccination count, with equality whenever every
vaccination has status `completed`, or status `scheduled` together with
a non-null `scheduledDate`.  (A `scheduled` row with a `NULL`
`scheduledDate` is counted by neither the due nor the overdue filter.) -/
theorem getVaccinationStats_bounds (db : DB) (today : SDate) :
    (getVaccinationStats db today).1 + (getVaccinationStats db today).2.1 +
      (getVaccinationStats db today).2.2 ≤ db.vaccinations.length ∧
    ((∀ v ∈ db.vaccinations, v.status = "completed" ∨
        (v.status = "scheduled" ∧ v.scheduledDate ≠ none)) →
      (getVaccinationStats db today).1 + (getVaccinationStats db today).2.1 +
        (getVaccinationStats db today).2.2 = db.vaccinations.length) := by
  unfold getVaccinationStats
  simp only []
  induction db.vaccinations with
  | nil => simp
  | cons v t ih =>
    simp only [List.countP_cons, List.length_cons]
    constructor
    · have hc := statContribution_le v today
      omega
    · intro h
      have heq := statContribution_eq v today (h v (by simp))
      have ht := ih.2 (fun x hx => h x (by simp [hx]))
      omega

/-- C1 counterexample input: a single vaccination with status
`scheduled` and a `NULL` `scheduledDate`. -/
def schedNullVaccination : Vaccination :=
  { id := 1, patientId := 1, vaccineId := 1, doseNumber := 1, scheduledDate := none,
    administeredDate := none, status := "scheduled", notes := none, administeredBy := none,
    createdAt := none, updatedAt := none }

/-- Database holding only `schedNullVaccination`. -/
def schedNullDB : DB :=
  { users := [], patients := [], vaccinations := [schedNullVaccination], appointments := [],
    patientsNextId := 1 }

/-- A fixed concrete day used by the concrete-input theorems. -/
def day0 : SDate := ⟨2024, 1, 1⟩

/-- C1 counterexample: in `schedNullDB` every vaccination has status
`completed` or `scheduled`, yet the three counts sum to `0`, not to the
total count `1` — the claimed equality condition fails on the code. -/
theorem getVaccinationStats_equality_fails :
    (∀ v ∈ schedNullDB.vaccinations, v.status = "completed" ∨ v.status = "scheduled") ∧
    ¬((getVaccinationStats schedNullDB day0).1 + (getVaccinationStats schedNullDB day0).2.1 +
        (getVaccinationStats schedNullDB day0).2.2 = schedNullDB.vaccinations.length) := by
  decide

/-- C1 witness input: a single completed vaccination and a single
scheduled one carrying a date. -/
def statsWitnessDB : DB :=
  { users := []
    patients := []
    vaccinations :=
      [{ id := 1, patientId := 1, vaccineId := 1, doseNumber := 1, scheduledDate := none,
         administeredDate := none, status := "completed", notes := none, administeredBy := none,
         createdAt := none, updatedAt := none },
       { id := 2, patientId := 1, vaccineId := 1, doseNumber := 1,
         scheduledDate := some ⟨2024, 1, 2⟩,
         administeredDate := none, status := "scheduled", notes := none, administeredBy := none,
         createdAt := none, updatedAt := none }]
    appointments := []
    patientsNextId := 1 }

/-- C1 witness: the amended equality hypothesis is satisfiable and the
theorem applies at `statsWitnessDB`. -/
theorem getVaccinationStats_bounds_witness :
    (getVaccinationStats statsWitnessDB day0).1 + (getVaccinationStats statsWitnessDB day0).2.1 +
      (getVaccinationStats statsWitnessDB day0).2.2 = statsWitnessDB.vaccinations.length :=
  (getVaccinationStats_bounds statsWitnessDB day0).2 (by decide)

theorem seqCreate_length (jobs : List (InsertPatient × Nat × SDate)) (db : DB) :
    (seqCreate db jobs).1.length = jobs.length := by
  induction jobs generalizing db with
  | nil => simp [seqCreate]
  | cons j rest ih =>
    obtain ⟨ins, ms, t⟩ := j
    simp [seqCreate, ih]

theorem seqCreate_patients (jobs : List (InsertPatient × Nat × SDate)) (db : DB) :
    (seqCreate db jobs).2.patients = db.patients ++ (seqCreate db jobs).1 := by
  induction jobs generalizing db with
  | nil => simp [seqCreate]
  | cons j rest ih =>
    obtain ⟨ins, ms, t⟩ := j
    simp [seqCreate, ih, createPatient]

theorem seqCreate_patientId (jobs : List (InsertPatient × Nat × SDate)) (db : DB) :
    ∀ i p, (seqCreate db jobs).1[i]? = some p →
      p.patientId = genPatientId (db.patients.length + i) := by
  induction jobs generalizing db with
  | nil => simp [seqCreate]
  | cons j rest ih =>
    obtain ⟨ins, ms, t⟩ := j
    intro i p h
    cases i with
    | zero =>
      simp only [seqCreate, List.getElem?_cons_zero, Option.some.injEq] at h
      subst h
      simp [createPatient]
    | succ i =>
      simp only [seqCreate, List.getElem?_cons_succ] at h
      have := ih (createPatient db ins ms t).2 i p h
      rw [this]
      have hlen : (createPatient db ins ms t).2.patients.length = db.patients.length + 1 := by
        simp [createPatient]
      rw [hlen]
      congr 1
      omega

/-- C2 (amended): `createPatient` derives the generated id as `RH` plus
`count + 1` zero-padded to (at least) 6 digits; under sequential
creation the numeric suffixes of the created ids strictly increase with
creation order, the created ids are pairwise distinct (and, starting
from an empty store, unique across all patients), and each id matches
`^RH\d{6}$` provided its sequence number stays below `10^6` (from the
millionth patient on, the suffix is 7 digits wide and the pattern
fails). -/
theorem createPatient_patientId_spec (db : DB) (jobs : List (InsertPatient × Nat × SDate)) :
    (∀ ins nowMs now, (createPatient db ins nowMs now).1.patientId =
        genPatientId db.patients.length) ∧
    List.Pairwise (fun a b => suffixValue a.patientId < suffixValue b.patientId)
      (seqCreate db jobs).1 ∧
    ((seqCreate db jobs).1.map Patient.patientId).Nodup ∧
    (db.patients = [] → ((seqCreate db jobs).2.patients.map Patient.patientId).Nodup) ∧
    (∀ i p, (seqCreate db jobs).1[i]? = some p → db.patients.length + i + 1 < 10 ^ 6 →
        isPatientIdFormat p.patientId = true) := by
  have hpw : List.Pairwise (fun a b => suffixValue a.patientId < suffixValue b.patientId)
      (seqCreate db jobs).1 := by
    rw [List.pairwise_iff_getElem]
    intro i j hi hj hij
    have hpi := seqCreate_patientId jobs db i ((seqCreate db jobs).1[i])
      (List.getElem?_eq_getElem hi)
    have hpj := seqCreate_patientId jobs db j ((seqCreate db jobs).1[j])
      (List.getElem?_eq_getElem hj)
    rw [hpi, hpj, suffixValue_genPatientId, suffixValue_genPatientId]
    omega
  have hnd : ((seqCreate db jobs).1.map Patient.patientId).Nodup := by
    refine List.Pairwise.map Patient.patientId ?_ hpw
    intro a b hab
    intro hEq
    rw [hEq] at hab
    omega
  refine ⟨fun ins nowMs now => rfl, hpw, hnd, ?_, ?_⟩
  · intro hempty
    rw [seqCreate_patients, hempty]
    simpa using hnd
  · intro i p hp hbound
    rw [seqCreate_patientId jobs db i p hp]
    exact isPatientIdFormat_genPatientId (by omega)

/-- Generic insert payload used by the concrete-input theorems. -/
def dummyInsert : InsertPatient :=
  { name := "A", phone := none, dateOfBirth := none, gender := none, address := none,
    guardianName := none, guardianPhone := none, ageGroup := "adult",
    medicalHistory := none, allergies := none, createdBy := none }

/-- Generic stored patient row used by the concrete-input theorems. -/
def dummyPatient : Patient :=
  { id := 1, patientId := "RH000001", name := "A", phone := none, dateOfBirth := none,
    gender := none, address := none, guardianName := none, guardianPhone := none,
    ageGroup := "adult", qrCode := "RH_RH000001_0", medicalHistory := none, allergies := none,
    createdAt := some day0, updatedAt := some day0, createdBy := none }

/-- Database already holding 999999 patient rows. -/
def millionDB : DB :=
  { users := [], patients := List.replicate 999999 dummyPatient, vaccinations := [],
    appointments := [], patientsNextId := 1000000 }

/-- C2 counterexample: the patient created when the store already holds
999999 rows gets the id `RH1000000`, which does not match `^RH\d{6}$`. -/
theorem createPatient_pattern_fails :
    (createPatient millionDB dummyInsert 0 day0).1.patientId = "RH1000000" ∧
    isPatientIdFormat (createPatient millionDB dummyInsert 0 day0).1.patientId = false := by
  have h1 : (createPatient millionDB dummyInsert 0 day0).1.patientId = genPatientId 999999 := by
    show genPatientId millionDB.patients.length = genPatientId 999999
    have hlen : millionDB.patients.length = 999999 := List.length_replicate 999999 dummyPatient
    rw [hlen]
  have h2 : genPatientId 999999 = "RH1000000" := by
    simp [genPatientId, padStart, decimalRepr, Nat.digits_def', digitChar]
    decide
  rw [h1, h2]
  exact ⟨rfl, by decide⟩

/-- Empty database, as before the very first patient creation. -/
def emptyDB : DB :=
  { users := [], patients := [], vaccinations := [], appointments := [], patientsNextId := 1 }

/-- Two sequential creation jobs. -/
def twoJobs : List (InsertPatient × Nat × SDate) :=
  [(dummyInsert, 0, day0), (dummyInsert, 1, day0)]

/-- C2 witness: the spec theorem applies to a two-job sequential run on
the empty database, discharging its hypotheses there. -/
theorem createPatient_patientId_spec_witness :
    ((seqCreate emptyDB twoJobs).2.patients.map Patient.patientId).Nodup ∧
    isPatientIdFormat ((createPatient emptyDB dummyInsert 0 day0).1.patientId) = true := by
  refine ⟨(createPatient_patientId_spec emptyDB twoJobs).2.2.2.1 rfl, ?_⟩
  exact (createPatient_patientId_spec emptyDB twoJobs).2.2.2.2 0
    ((createPatient emptyDB dummyInsert 0 day0).1) rfl (by decide)

theorem isOverdueVaccination_eq_true (v : Vaccination) (today : SDate) :
    isOverdueVaccination v today = true ↔
      (∃ d, v.scheduledDate = some d ∧ SDate.ltb d today = true) ∧ v.status = "scheduled" := by
  unfold isOverdueVaccination
  cases hd : v.scheduledDate <;> simp [hd]

theorem mem_overdueReport (db : DB) (ps : List Patient) (today : SDate) (p : Patient)
    (ov : List Vaccination) :
    (p, ov) ∈ overdueReport db ps today ↔
      p ∈ ps ∧
      ov = (getVaccinationsByPatient db p.id).filter (fun v => isOverdueVaccination v today) ∧
      ov ≠ [] := by
  unfold overdueReport
  rw [List.mem_filterMap]
  constructor
  · rintro ⟨q, hq, hf⟩
    simp only [] at hf
    by_cases he :
        ((getVaccinationsByPatient db q.id).filter (fun v => isOverdueVaccination v today)).isEmpty
    · simp [he] at hf
    · simp only [he, if_false, Option.some.injEq, Prod.mk.injEq] at hf
      obtain ⟨rfl, rfl⟩ := hf
      refine ⟨hq, rfl, ?_⟩
      intro hnil
      rw [hnil] at he
      simp at he
  · rintro ⟨hp, rfl, hne⟩
    refine ⟨p, hp, ?_⟩
    simp only [Option.ite_none_left_eq_some ]
    refine ⟨by simpa using hne, by simp⟩

/-- C3: in the overdue report over a fetched patient list, a vaccination
of a listed patient appears iff its `scheduledDate` is present and
strictly before today and its status is `scheduled`; hence a completed
vaccination never appears, a vaccination scheduled exactly today never
appears, and a patient with no overdue vaccination is absent from the
output. -/
theorem overdueReport_membership_spec (db : DB) (ps : List Patient) (today : SDate) :
    (∀ p ov, (p, ov) ∈ overdueReport db ps today →
      ∀ v, v ∈ ov ↔ (v ∈ getVaccinationsByPatient db p.id ∧
        (∃ d, v.scheduledDate = some d ∧ SDate.ltb d today = true) ∧
        v.status = "scheduled")) ∧
    (∀ p ov v, (p, ov) ∈ overdueReport db ps today → v ∈ ov →
      v.status ≠ "completed" ∧ v.scheduledDate ≠ some today) ∧
    (∀ p, (∀ v ∈ getVaccinationsByPatient db p.id, isOverdueVaccination v today = false) →
      ∀ ov, (p, ov) ∉ overdueReport db ps today) := by
  have hmain : ∀ p ov, (p, ov) ∈ overdueReport db ps today →
      ∀ v, v ∈ ov ↔ (v ∈ getVaccinationsByPatient db p.id ∧
        (∃ d, v.scheduledDate = some d ∧ SDate.ltb d today = true) ∧
        v.status = "scheduled") := by
    intro p ov hmem v
    obtain ⟨hp, rfl, hne⟩ := (mem_overdueReport db ps today p ov).mp hmem
    rw [List.mem_filter]
    rw [isOverdueVaccination_eq_true]
  refine ⟨hmain, ?_, ?_⟩
  · intro p ov v hmem hv
    obtain ⟨hbase, ⟨d, hd, hlt⟩, hstat⟩ := (hmain p ov hmem v).mp hv
    constructor
    · rw [hstat]; decide
    · intro hEq
      rw [hEq] at hd
      obtain rfl : today = d := by injection hd
      rw [SDate.ltb_irrefl] at hlt
      exact Bool.false_ne_true hlt
  · intro p hall ov hmem
    obtain ⟨hp, hov, hne⟩ := (mem_overdueReport db ps today p ov).mp hmem
    apply hne
    rw [hov]
    rw [List.filter_eq_nil_iff]
    intro v hv
    simp [hall v hv]

/-- C3 witness patient. -/
def overduePatient : Patient :=
  { id := 1, patientId := "RH000001", name := "A", phone := none, dateOfBirth := none,
    gender := none, address := none, guardianName := none, guardianPhone := none,
    ageGroup := "adult", qrCode := "RH_RH000001_0", medicalHistory := none, allergies := none,
    createdAt := some ⟨2023, 12, 1⟩, updatedAt := some ⟨2023, 12, 1⟩, createdBy := none }

/-- C3 witness vaccination: scheduled yesterday, still `scheduled`. -/
def overdueVaccination : Vaccination :=
  { id := 1, patientId := 1, vaccineId := 1, doseNumber := 1,
    scheduledDate := some ⟨2023, 12, 31⟩, administeredDate := none, status := "scheduled",
    notes := none, administeredBy := none, createdAt := none, updatedAt := none }

/-- C3 witness database. -/
def overdueDB : DB :=
  { users := [], patients := [overduePatient], vaccinations := [overdueVaccination],
    appointments := [], patientsNextId := 2 }

/-- C3 witness: the spec theorem applied to a concrete report entry. -/
theorem overdueReport_membership_spec_witness :
    overdueVaccination.status ≠ "completed" ∧ overdueVaccination.scheduledDate ≠ some day0 :=
  (overdueReport_membership_spec overdueDB [overduePatient] day0).2.1 overduePatient
    [overdueVaccination] overdueVaccination (by decide) (by decide)

theorem find?_append_singleton {α : Type} (l : List α) (x : α) (pred : α → Bool)
    (hl : ∀ a ∈ l, pred a = false) (hx : pred x = true) :
    (l ++ [x]).find? pred = some x := by
  induction l with
  | nil => simp [List.find?, hx]
  | cons a t ih =>
    have ha := hl a (by simp)
    rw [List.cons_append, List.find?_cons_of_neg _ (by simp [ha])]
    exact ih (fun b hb => hl b (by simp [hb]))

theorem createPatient_db_patients (db : DB) (ins : InsertPatient) (nowMs : Nat) (now : SDate) :
    (createPatient db ins nowMs now).2.patients =
      db.patients ++ [(createPatient db ins nowMs now).1] := rfl

/-- C4: when the insert of `createPatient` succeeds (its generated key
fields clash with no existing row), fetching afterwards by serial id,
by generated `patientId`, and by generated `qrCode` each return exactly
the created record. -/
theorem createPatient_roundtrip (db : DB) (ins : InsertPatient) (nowMs : Nat) (now : SDate)
    (h : createOk db ins nowMs now = true) :
    getPatient (createPatient db ins nowMs now).2 (createPatient db ins nowMs now).1.id =
      some (createPatient db ins nowMs now).1 ∧
    getPatientByPatientId (createPatient db ins nowMs now).2
      (createPatient db ins nowMs now).1.patientId = some (createPatient db ins nowMs now).1 ∧
    getPatientByQRCode (createPatient db ins nowMs now).2
      (createPatient db ins nowMs now).1.qrCode = some (createPatient db ins nowMs now).1 := by
  unfold createOk at h
  rw [List.all_eq_true] at h
  refine ⟨?_, ?_, ?_⟩
  · unfold getPatient
    rw [createPatient_db_patients]
    apply find?_append_singleton
    · intro q hq
      have := h q hq
      simp only [Bool.and_eq_true, bne_iff_ne, ne_eq] at this
      simp [this.1.1]
    · simp
  · unfold getPatientByPatientId
    rw [createPatient_db_patients]
    apply find?_append_singleton
    · intro q hq
      have := h q hq
      simp only [Bool.and_eq_true, bne_iff_ne, ne_eq] at this
      simp [this.1.2]
    · simp
  · unfold getPatientByQRCode
    rw [createPatient_db_patients]
    apply find?_append_singleton
    · intro q hq
      have := h q hq
      simp only [Bool.and_eq_true, bne_iff_ne, ne_eq] at this
      simp [this.2]
    · simp

/-- C4 witness: the round-trip theorem applies to a creation on the
empty database. -/
theorem createPatient_roundtrip_witness :
    getPatient (createPatient emptyDB dummyInsert 0 day0).2
        (createPatient emptyDB dummyInsert 0 day0).1.id =
      some (createPatient emptyDB dummyInsert 0 day0).1 ∧
    getPatientByQRCode (createPatient emptyDB dummyInsert 0 day0).2
        (createPatient emptyDB dummyInsert 0 day0).1.qrCode =
      some (createPatient emptyDB dummyInsert 0 day0).1 :=
  ⟨(createPatient_roundtrip emptyDB dummyInsert 0 day0 (by decide)).1,
   (createPatient_roundtrip emptyDB dummyInsert 0 day0 (by decide)).2.2⟩

/-- C5 (amended): in the monthly report, `vaccinationsGiven` counts
exactly the vaccinations whose `administeredDate` falls in the target
year/month (an absent date never matches), `totalPatients` is the size
of the fetched patient list, and `completionRate` is the string `"0"`
when there are zero total patients and otherwise the `toFixed(1)`
rendering of the IEEE-754 double evaluation of
`(vaccinationsGiven / totalPatients) * 100` — which can differ from the
exact value rounded to one decimal place when the double falls on the
other side of a tenth boundary (see the counterexample at 23/80). -/
theorem monthlyReport_completionRate_spec (ps : List Patient) (vs : List Vaccination)
    (year month : Nat) :
    (monthlyReport ps vs year month).vaccinationsGiven =
      vs.countP (fun v => monthMatches v.administeredDate year month) ∧
    (∀ v : Vaccination, v.administeredDate = none →
      monthMatches v.administeredDate year month = false) ∧
    (monthlyReport ps vs year month).totalPatients = ps.length ∧
    ((monthlyReport ps vs year month).totalPatients = 0 →
      (monthlyReport ps vs year month).completionRate = "0") ∧
    ((monthlyReport ps vs year month).totalPatients ≠ 0 →
      (monthlyReport ps vs year month).completionRate =
        renderFixed1 (floatTenths (monthlyReport ps vs year month).vaccinationsGiven
          (monthlyReport ps vs year month).totalPatients)) := by
  refine ⟨?_, ?_, rfl, ?_, ?_⟩
  · show (vs.filter (fun v => monthMatches v.administeredDate year month)).length = _
    rw [List.countP_eq_length_filter]
  · intro v hv
    rw [hv]
    rfl
  · intro h
    replace h : ps.length = 0 := h
    show (if ps.length > 0 then _ else "0") = "0"
    simp [h]
  · intro h
    replace h : ps.length ≠ 0 := h
    show (if ps.length > 0 then
        renderFixed1 (floatTenths (vs.filter
          (fun v => monthMatches v.administeredDate year month)).length ps.length)
      else "0") = _
    rw [if_pos (by omega)]
    rfl

/-- Vaccination administered inside the 2024-01 reporting month. -/
def monthVaccination : Vaccination :=
  { id := 1, patientId := 1, vaccineId := 1, doseNumber := 1, scheduledDate := none,
    administeredDate := some ⟨2024, 1, 15⟩, status := "completed", notes := none,
    administeredBy := none, createdAt := none, updatedAt := none }

/-- Eighty stored patients. -/
def eightyPatients : List Patient := List.replicate 80 dummyPatient

/-- Twenty-three vaccinations given in the reporting month. -/
def twentyThreeGiven : List Vaccination := List.replicate 23 monthVaccination

/-- C5 counterexample: with 23 vaccinations given and 80 total patients
the exact value of `(23 / 80) * 100` is 28.75, whose rounding to one
decimal place renders as `"28.8"`, but the code's double evaluation of
`23 / 80` is `0.28749999999999997779…` (below the tie), so `toFixed(1)`
renders `"28.7"` — the claimed equality with exact one-decimal rounding
fails on the code. -/
theorem monthlyReport_completionRate_float_divergence :
    (monthlyReport eightyPatients twentyThreeGiven 2024 1).vaccinationsGiven = 23 ∧
    (monthlyReport eightyPatients twentyThreeGiven 2024 1).totalPatients = 80 ∧
    (monthlyReport eightyPatients twentyThreeGiven 2024 1).completionRate = "28.7" ∧
    renderFixed1 (rateTenths 23 80) = "28.8" ∧
    (monthlyReport eightyPatients twentyThreeGiven 2024 1).completionRate ≠
      renderFixed1 (rateTenths
        (monthlyReport eightyPatients twentyThreeGiven 2024 1).vaccinationsGiven
        (monthlyReport eightyPatients twentyThreeGiven 2024 1).totalPatients) := by
  have hg : (monthlyReport eightyPatients twentyThreeGiven 2024 1).vaccinationsGiven = 23 := by
    decide
  have ht : (monthlyReport eightyPatients twentyThreeGiven 2024 1).totalPatients = 80 := by
    decide
  have hfl : floatTenths 23 80 = 287 := by decide
  have hex : rateTenths 23 80 = 288 := by decide
  have h287 : renderFixed1 287 = "28.7" := by
    simp [renderFixed1, decimalRepr, Nat.digits_def', digitChar]
  have h288 : renderFixed1 288 = "28.8" := by
    simp [renderFixed1, decimalRepr, Nat.digits_def', digitChar]
  have hrate : (monthlyReport eightyPatients twentyThreeGiven 2024 1).completionRate =
      renderFixed1 (floatTenths 23 80) := by rfl
  refine ⟨hg, ht, ?_, ?_, ?_⟩
  · rw [hrate, hfl, h287]
  · rw [hex, h288]
  · rw [hrate, hfl, h287, hg, ht, hex, h288]
    decide

/-- C5 witness: the completion-rate theorem applied to an empty patient
list and to a one-patient list. -/
theorem monthlyReport_completionRate_spec_witness :
    (monthlyReport [] [] 2024 1).completionRate = "0" ∧
    (monthlyReport [overduePatient] [] 2024 1).completionRate =
      renderFixed1 (floatTenths (monthlyReport [overduePatient] [] 2024 1).vaccinationsGiven
        (monthlyReport [overduePatient] [] 2024 1).totalPatients) :=
  ⟨(monthlyReport_completionRate_spec [] [] 2024 1).2.2.2.1 (by decide),
   (monthlyReport_completionRate_spec [overduePatient] [] 2024 1).2.2.2.2 (by decide)⟩

theorem sum_countsBy (f : Patient → String) (ps : List Patient) :
    ((countsBy f ps).map Prod.snd).sum = ps.length := by
  unfold countsBy
  rw [List.map_map]
  have hc : (Prod.snd ∘ fun lab => (lab, (ps.map f).count lab)) =
      fun lab => (ps.map f).count lab := rfl
  rw [hc]
  rw [List.sum_map_count_dedup_eq_length]
  simp

/-- C6: in the demographics report the per-category counts of
`byAgeGroup` sum to `total`, and likewise for `byGender`; a patient with
an absent (or empty, which is equally falsy in JS) `gender` is counted
under the label `Unknown`, as is one with an empty `ageGroup` (the
column itself is `NOT NULL`). -/
theorem demographics_sum_spec (ps : List Patient) :
    ((demographicsReport ps).byAgeGroup.map Prod.snd).sum = (demographicsReport ps).total ∧
    ((demographicsReport ps).byGender.map Prod.snd).sum = (demographicsReport ps).total ∧
    (∀ p : Patient, p.gender = none → genderLabel p = "Unknown") ∧
    (∀ p : Patient, p.ageGroup = "" → ageGroupLabel p = "Unknown") := by
  refine ⟨sum_countsBy ageGroupLabel ps, sum_countsBy genderLabel ps, ?_, ?_⟩
  · intro p h
    unfold genderLabel
    rw [h]
  · intro p h
    unfold ageGroupLabel
    rw [if_pos h]

/-- C6 witness: the demographics theorem applied at a patient with
absent gender and at one with an empty age group. -/
theorem demographics_sum_spec_witness :
    genderLabel dummyPatient = "Unknown" ∧
    ageGroupLabel { dummyPatient with ageGroup := "" } = "Unknown" :=
  ⟨(demographics_sum_spec []).2.2.1 dummyPatient (by decide),
   (demographics_sum_spec []).2.2.2 { dummyPatient with ageGroup := "" } (by decide)⟩

/-- C7: every row of the store after `updatePatient` is either an
untouched row with a different id, or the merge of a matching old row
with the update object — and that merge keeps the generated `patientId`
and `qrCode` (which `Partial<InsertPatient>` cannot even name), stamps
`updatedAt` with the current instant, and leaves every field not named
in the update object (and `createdAt`) at its previous value. -/
theorem updatePatient_frame_spec (db : DB) (id : Nat) (u : PatientUpdate) (now : SDate) :
    ∀ q ∈ (updatePatient db id u now).2.patients,
      (q ∈ db.patients ∧ q.id ≠ id) ∨
      ∃ p ∈ db.patients, p.id = id ∧ q = applyPatientUpdate p u now ∧
        q.patientId = p.patientId ∧ q.qrCode = p.qrCode ∧ q.updatedAt = some now ∧
        q.createdAt = p.createdAt ∧
        (u.name = none → q.name = p.name) ∧
        (u.phone = none → q.phone = p.phone) ∧
        (u.dateOfBirth = none → q.dateOfBirth = p.dateOfBirth) ∧
        (u.gender = none → q.gender = p.gender) ∧
        (u.address = none → q.address = p.address) ∧
        (u.guardianName = none → q.guardianName = p.guardianName) ∧
        (u.guardianPhone = none → q.guardianPhone = p.guardianPhone) ∧
        (u.ageGroup = none → q.ageGroup = p.ageGroup) ∧
        (u.medicalHistory = none → q.medicalHistory = p.medicalHistory) ∧
        (u.allergies = none → q.allergies = p.allergies) ∧
        (u.createdBy = none → q.createdBy = p.createdBy) := by
  intro q hq
  unfold updatePatient at hq
  simp only [List.mem_map] at hq
  obtain ⟨p, hp, hqeq⟩ := hq
  by_cases hid : p.id = id
  · right
    rw [if_pos (by simp [hid])] at hqeq
    subst hqeq
    refine ⟨p, hp, hid, rfl, rfl, rfl, rfl, rfl, ?_, ?_, ?_, ?_, ?_, ?_, ?_, ?_, ?_, ?_, ?_⟩ <;>
      (intro hnone; simp [applyPatientUpdate, hnone])
  · left
    rw [if_neg (by simp [hid])] at hqeq
    subst hqeq
    exact ⟨hp, hid⟩

/-- C7 witness update object: a new name, everything else absent. -/
def nameOnlyUpdate : PatientUpdate :=
  { name := some "B", phone := none, dateOfBirth := none, gender := none, address := none,
    guardianName := none, guardianPhone := none, ageGroup := none, medicalHistory := none,
    allergies := none, createdBy := none }

/-- C7 witness: the frame theorem applied to the one-patient store. -/
theorem updatePatient_frame_spec_witness :
    (applyPatientUpdate overduePatient nameOnlyUpdate day0).patientId =
      overduePatient.patientId ∧
    (applyPatientUpdate overduePatient nameOnlyUpdate day0).qrCode = overduePatient.qrCode ∧
    (applyPatientUpdate overduePatient nameOnlyUpdate day0).updatedAt = some day0 ∧
    (applyPatientUpdate overduePatient nameOnlyUpdate day0).phone = overduePatient.phone := by
  have h := updatePatient_frame_spec overdueDB 1 nameOnlyUpdate day0
    (applyPatientUpdate overduePatient nameOnlyUpdate day0) (by decide)
  rcases h with ⟨hmem, hid⟩ | ⟨p, hp, hpid, heq, hgen, hqr, hupd, hcre, hname, hphone, hrest⟩
  · exact absurd (by decide : (applyPatientUpdate overduePatient nameOnlyUpdate day0).id = 1) hid
  · have hp' : p = overduePatient := by simpa [overdueDB] using hp
    subst hp'
    exact ⟨hgen, hqr, hupd, hphone rfl⟩

theorem getAllPatients_1000_length (db : DB) :
    (getAllPatients db 1000 0).length = min 1000 db.patients.length := by
  unfold getAllPatients
  simp [List.length_take, List.length_mergeSort]

/-- C8: the dashboard patient total, the demographics total, and the
monthly report's `totalPatients` all equal `min 1000 (patient count)`
because each handler fetches `getAllPatients(1000, 0)`; every patient in
the overdue report comes from the 1000 most recent (by creation time)
patients; hence with more than 1000 patients the excess is silently
excluded from these results. -/
theorem reports_capped_at_1000 (db : DB) (today : SDate) (year month : Nat) :
    (dashboardStats db today).1 = min 1000 db.patients.length ∧
    (demographicsEndpoint db).total = min 1000 db.patients.length ∧
    (monthlyEndpoint db year month).totalPatients = min 1000 db.patients.length ∧
    (∀ p ov, (p, ov) ∈ overdueEndpoint db today →
      p ∈ (db.patients.mergeSort createdAtDescLe).take 1000) ∧
    (db.patients.length > 1000 → (dashboardStats db today).1 < db.patients.length) := by
  have hlen := getAllPatients_1000_length db
  refine ⟨hlen, hlen, hlen, ?_, ?_⟩
  · intro p ov hmem
    have hp := ((mem_overdueReport db (getAllPatients db 1000 0) today p ov).mp hmem).1
    exact hp
  · intro hgt
    show (getAllPatients db 1000 0).length < db.patients.length
    rw [hlen]
    omega

/-- Database holding 1001 patient rows. -/
def overfullDB : DB :=
  { users := [], patients := List.replicate 1001 dummyPatient, vaccinations := [],
    appointments := [], patientsNextId := 1002 }

/-- C8 witness: the cap theorem applied to a 1001-patient store and to a
concrete overdue-report entry. -/
theorem reports_capped_at_1000_witness :
    (dashboardStats overfullDB day0).1 < overfullDB.patients.length ∧
    overduePatient ∈ (overdueDB.patients.mergeSort createdAtDescLe).take 1000 := by
  constructor
  · refine (reports_capped_at_1000 overfullDB day0 2024 1).2.2.2.2 ?_
    show (List.replicate 1001 dummyPatient).length > 1000
    rw [List.length_replicate]
    omega
  · refine (reports_capped_at_1000 overdueDB day0 2024 1).2.2.2.1 overduePatient
      [overdueVaccination] ?_
    show (overduePatient, [overdueVaccination]) ∈
      overdueReport overdueDB (getAllPatients overdueDB 1000 0) day0
    have he : getAllPatients overdueDB 1000 0 = [overduePatient] := by
      show ((([overduePatient] : List Patient).mergeSort createdAtDescLe).drop 0).take 1000 =
        [overduePatient]
      simp
    rw [he]
    decide

theorem map_unmatched_id {α : Type} (l : List α) (idOf : α → Nat) (id : Nat) (f : α → α)
    (h : ∀ a ∈ l, idOf a ≠ id) :
    l.map (fun a => if idOf a == id then f a else a) = l := by
  have hcong : ∀ a ∈ l, (if idOf a == id then f a else a) = (fun a => a) a := by
    intro a ha
    rw [if_neg (by simp [h a ha])]
  rw [List.map_congr_left hcong]
  simp

/-- C9: when no row carries the requested id, each of the four update
operations returns an absent value (`undefined` from the destructured
empty `RETURNING` set, despite the declared `Promise<Row>` type) and
leaves the store unchanged. -/
theorem update_missing_id_spec (hash : String → String) (db : DB) (id : Nat)
    (uu : UserUpdate) (pu : PatientUpdate) (vu : VaccinationUpdate) (au : AppointmentUpdate)
    (now : SDate) :
    ((∀ u ∈ db.users, u.id ≠ id) → updateUser hash db id uu now = (none, db)) ∧
    ((∀ p ∈ db.patients, p.id ≠ id) → updatePatient db id pu now = (none, db)) ∧
    ((∀ v ∈ db.vaccinations, v.id ≠ id) → updateVaccination db id vu now = (none, db)) ∧
    ((∀ a ∈ db.appointments, a.id ≠ id) → updateAppointment db id au now = (none, db)) := by
  refine ⟨?_, ?_, ?_, ?_⟩
  · intro h
    unfold updateUser
    have h1 : db.users.find? (fun x => x.id == id) = none :=
      List.find?_eq_none.mpr (fun x hx => by simp [h x hx])
    have h2 : db.users.map (fun x => if x.id == id then applyUserUpdate hash x uu now else x) =
        db.users := map_unmatched_id db.users (fun x => x.id) id
          (fun x => applyUserUpdate hash x uu now) h
    rw [h1, h2]
    rfl
  · intro h
    unfold updatePatient
    have h1 : db.patients.find? (fun x => x.id == id) = none :=
      List.find?_eq_none.mpr (fun x hx => by simp [h x hx])
    have h2 : db.patients.map (fun x => if x.id == id then applyPatientUpdate x pu now else x) =
        db.patients := map_unmatched_id db.patients (fun x => x.id) id
          (fun x => applyPatientUpdate x pu now) h
    rw [h1, h2]
    rfl
  · intro h
    unfold updateVaccination
    have h1 : db.vaccinations.find? (fun x => x.id == id) = none :=
      List.find?_eq_none.mpr (fun x hx => by simp [h x hx])
    have h2 : db.vaccinations.map
        (fun x => if x.id == id then applyVaccinationUpdate x vu now else x) =
        db.vaccinations := map_unmatched_id db.vaccinations (fun x => x.id) id
          (fun x => applyVaccinationUpdate x vu now) h
    rw [h1, h2]
    rfl
  · intro h
    unfold updateAppointment
    have h1 : db.appointments.find? (fun x => x.id == id) = none :=
      List.find?_eq_none.mpr (fun x hx => by simp [h x hx])
    have h2 : db.appointments.map
        (fun x => if x.id == id then applyAppointmentUpdate x au now else x) =
        db.appointments := map_unmatched_id db.appointments (fun x => x.id) id
          (fun x => applyAppointmentUpdate x au now) h
    rw [h1, h2]
    rfl

/-- Identity stand-in for the abstract bcrypt hash in concrete inputs. -/
def hashW : String → String := fun s => "#" ++ s

/-- All-absent user update object. -/
def noneUserUpdate : UserUpdate :=
  { username := none, password := none, role := none, name := none, phone := none,
    email := none, isActive := none }

/-- All-absent vaccination update object. -/
def noneVaccUpdate : VaccinationUpdate :=
  { patientId := none, vaccineId := none, doseNumber := none, scheduledDate := none,
    administeredDate := none, status := none, notes := none, administeredBy := none }

/-- All-absent appointment update object. -/
def noneApptUpdate : AppointmentUpdate :=
  { patientId := none, vaccinationId := none, appointmentDate := none, appointmentTime := none,
    status := none, type := none, notes := none, createdBy := none }

/-- C9 witness: all four update operations on the empty store. -/
theorem update_missing_id_spec_witness :
    updateUser hashW emptyDB 5 noneUserUpdate day0 = (none, emptyDB) ∧
    updatePatient emptyDB 5 nameOnlyUpdate day0 = (none, emptyDB) ∧
    updateVaccination emptyDB 5 noneVaccUpdate day0 = (none, emptyDB) ∧
    updateAppointment emptyDB 5 noneApptUpdate day0 = (none, emptyDB) :=
  ⟨(update_missing_id_spec hashW emptyDB 5 noneUserUpdate nameOnlyUpdate noneVaccUpdate
      noneApptUpdate day0).1 (by simp [emptyDB]),
   (update_missing_id_spec hashW emptyDB 5 noneUserUpdate nameOnlyUpdate noneVaccUpdate
      noneApptUpdate day0).2.1 (by simp [emptyDB]),
   (update_missing_id_spec hashW emptyDB 5 noneUserUpdate nameOnlyUpdate noneVaccUpdate
      noneApptUpdate day0).2.2.1 (by simp [emptyDB]),
   (update_missing_id_spec hashW emptyDB 5 noneUserUpdate nameOnlyUpdate noneVaccUpdate
      noneApptUpdate day0).2.2.2 (by simp [emptyDB])⟩

/-- C10: when the update object carries password `p`, the persisted
password is `p` itself if `p` is the empty string (the falsy guard skips
hashing and the empty string is stored verbatim), and `hash p`
otherwise — both for the row transformer applied by the store and for
the row returned by `updateUser`. -/
theorem updateUser_password_spec (hash : String → String) (db : DB) (id : Nat)
    (u : UserUpdate) (now : SDate) (p : String) (hp : u.password = some p) :
    (∀ x : User, (applyUserUpdate hash x u now).password = if p = "" then p else hash p) ∧
    (∀ r : User, (updateUser hash db id u now).1 = some r →
      r.password = if p = "" then p else hash p) := by
  have happ : ∀ x : User, (applyUserUpdate hash x u now).password =
      if p = "" then p else hash p := by
    intro x
    unfold applyUserUpdate
    rw [hp]
  refine ⟨happ, ?_⟩
  intro r hr
  unfold updateUser at hr
  rw [Option.map_eq_some'] at hr
  obtain ⟨x, hx, hxr⟩ := hr
  rw [← hxr]
  exact happ x

/-- C10 witness user row. -/
def storedUser : User :=
  { id := 1, username := "u", password := "$2a$10$old", role := "admin", name := "U",
    phone := none, email := none, isActive := true, createdAt := day0, updatedAt := day0 }

/-- One-user store for the password witness. -/
def oneUserDB : DB :=
  { users := [storedUser], patients := [], vaccinations := [], appointments := [],
    patientsNextId := 1 }

/-- Update object carrying an empty-string password. -/
def emptyPasswordUpdate : UserUpdate :=
  { username := none, password := some "", role := none, name := none, phone := none,
    email := none, isActive := none }

/-- C10 witness: an empty-string password is persisted verbatim (not
hashed) by the update applied to the one-user store. -/
theorem updateUser_password_spec_witness :
    (applyUserUpdate hashW storedUser emptyPasswordUpdate day0).password = "" := by
  have h := (updateUser_password_spec hashW oneUserDB 1 emptyPasswordUpdate day0 "" rfl).1
    storedUser
  rw [if_pos rfl] at h
  exact h
